import Mathlib

/-!
Verification of the color engine of `kivygw` (`src/kivygw/utils/colors.py`),
shallowly embedded in Lean 4.

Modelling conventions:
* Python numbers (ints and floats) are modelled as `ℚ`.  Python's `int()`
  truncation toward zero is `pyInt`.  For every value these claims touch
  (0..255 channel values divided/multiplied by 255) IEEE-double evaluation
  agrees with exact rational arithmetic (checked exhaustively for all 256
  channel values), so the `ℚ` model is faithful on the relevant domain.
* Python `None`-or-number arguments are `Option ℚ`; Python truthiness of such
  a value (`if alpha:`) is `pyTruthy` (`None` and `0` are falsy).
* A function that can raise is modelled as `Except String _`; the string is a
  rendering of the exception.  A function that can return `None` or a tuple
  returns `Option (List ℚ)` (the empty list models both the empty tuple and
  `None` at entry points guarded by `if not color_tuple:`, which treats both
  identically).
* `color_distance` (colors.py lines 1204-1218) returns `0.0` on exact integer
  equality and otherwise `math.sqrt` of a positive integer.  We model it by
  the squared distance `color_distance_sq`: `sqrt` is strictly monotone, so
  every comparison in `by_value` is preserved exactly
  (`off_by <= 0.001` holds iff the squared distance is `0`, since a nonzero
  integer squared distance gives `sqrt ≥ 1`; `off_by < best` iff the squares
  compare with `<`; the initial bound `99999` becomes `99999^2`).
-/

namespace Kivygw

/-- One member of the `NamedColor` enum: name, RGB triple and the
STANDARD/EXTRA classification flag (`value[1]` in the source). -/
structure ColorEntry where
  name : String
  red : Int
  green : Int
  blue : Int
  standard : Bool
deriving DecidableEq, Repr

/-- Python truthiness of an optional numeric value: `None` and `0`/`0.0` are
falsy, everything else is truthy. -/
def pyTruthy (a : Option ℚ) : Bool :=
  match a with
  | none => false
  | some q => decide (q ≠ 0)

/-- Python `int()` on a number: truncation toward zero (the denominator of a
normalised rational is positive, so `Int.tdiv` truncates toward zero exactly
as Python does). -/
def pyInt (q : ℚ) : Int := q.num.tdiv (q.den : Int)

/-- Python `min` on two numbers (the first argument wins ties). -/
def pyMin (a b : ℚ) : ℚ := if a ≤ b then a else b

/-- Python `max` on two numbers (the first argument wins ties). -/
def pyMax (a b : ℚ) : ℚ := if b ≤ a then a else b

/-- Python `%` on numbers with divisor `1.0` (used for hue wrap-around):
result in `[0, 1)`. -/
def pyMod1 (q : ℚ) : ℚ := q - ⌊q⌋

/-- Model of `is_float_tuple` (colors.py lines 968-980):
`not any(value > 1.0 or value < 0.0 for value in color_tuple)`. -/
def is_float_tuple (ct : List ℚ) : Bool :=
  ! ct.any (fun v => decide (1 < v) || decide (v < 0))

/-- Model of `float_color` (colors.py lines 993-997) on a number:
`min(int_color / 255, 1.0)`.  (The `None` case is handled by `Option.map`
at the call sites, exactly as the source's `if int_color is not None`.) -/
def float_color (c : ℚ) : ℚ := pyMin (c / 255) 1

/-- Model of `int_color` (colors.py lines 1031-1035) on a number:
`min(int(float_color * 255), 255)`. -/
def int_color (f : ℚ) : ℚ := pyMin ((pyInt (f * 255) : ℚ)) 255

/-- Body of `float_tuple` after the 3- or 4-tuple destructuring (colors.py
lines 1023-1028): `if not alpha: alpha = float_color(old_alpha)` followed by
the 3- or 4-tuple build. -/
def float_tuple_core (r g b : ℚ) (old_alpha : Option ℚ) (alpha : Option ℚ) : List ℚ :=
  let alpha2 := if pyTruthy alpha then alpha else old_alpha.map float_color
  match alpha2 with
  | some a => [float_color r, float_color g, float_color b, a]
  | none => [float_color r, float_color g, float_color b]

/-- Model of `float_tuple` (colors.py lines 1000-1028).  The empty list models a falsy
input (`None` or `()`), which returns `None`.  An input that passes
`is_float_tuple` is returned as-is (with the alpha override applied only if
truthy); otherwise a tuple whose length is not 3 or 4 raises `ValueError`. -/
def float_tuple (ct : List ℚ) (alpha : Option ℚ) : Except String (Option (List ℚ)) :=
  if ct.isEmpty then .ok none
  else if is_float_tuple ct then
    .ok (some (if pyTruthy alpha then ct.take 3 ++ [alpha.getD 0] else ct))
  else
    match ct with
    | [r, g, b] => .ok (some (float_tuple_core r g b none alpha))
    | [r, g, b, a] => .ok (some (float_tuple_core r g b (some a) alpha))
    | _ => .error "ValueError: float_tuple() requires a 3-tuple or a 4-tuple"

/-- Body of `int_tuple` after the 3- or 4-tuple destructuring (colors.py lines
1059-1064).  Note that when the alpha comes from the input tuple it passes
through `int_color` twice, exactly as in the source
(`alpha = int_color(old_alpha)` then `int_color(alpha)` in the return). -/
def int_tuple_core (r g b : ℚ) (old_alpha : Option ℚ) (alpha : Option ℚ) : List ℚ :=
  let alpha2 := if pyTruthy alpha then alpha else old_alpha.map int_color
  match alpha2 with
  | some a => [int_color r, int_color g, int_color b, int_color a]
  | none => [int_color r, int_color g, int_color b]

/-- Model of `int_tuple` (colors.py lines 1038-1064).  The wrong-arity branch raises:
in the source the f-string of the intended `ValueError` evaluates
`len(int_tuple)` -- `int_tuple` there is the function object itself -- so a
`TypeError` is raised while building the message; either way it is a raised
exception, which is all the model records. -/
def int_tuple (ct : List ℚ) (alpha : Option ℚ) : Except String (Option (List ℚ)) :=
  if ct.isEmpty then .ok none
  else
    match ct with
    | [r, g, b] => .ok (some (int_tuple_core r g b none alpha))
    | [r, g, b, a] => .ok (some (int_tuple_core r g b (some a) alpha))
    | _ => .error "TypeError: object of type function has no len()"

/-- Model of `color_brightness` (colors.py lines 1067-1074):
`int(sum(int_tuple[:3]) / 3)`. -/
def color_brightness (ct : List ℚ) : Int :=
  pyInt ((ct.take 3).sum / 3)

/-- Model of `color_outline` (colors.py lines 1138-1153).  A float-classified input is
converted with `int_tuple`, the black/white choice is made on the brightness,
and the result is converted back with `float_tuple` when the input was
float-classified. -/
def color_outline (ct : List ℚ) : Except String (Option (List ℚ)) := do
  let was_float := is_float_tuple ct
  let ct2opt ← if was_float then int_tuple ct none else pure (some ct)
  match ct2opt with
  | none => .error "TypeError: NoneType is not subscriptable"
  | some ct2 =>
    let is_dark := decide (color_brightness ct2 < 128)
    let result : List ℚ := if is_dark then [255, 255, 255] else [0, 0, 0]
    if was_float then float_tuple result none else pure (some result)

/-- Uppercase hex digit for a value 0..15. -/
def hexDigit (n : Nat) : Char :=
  "0123456789ABCDEF".toList.getD n '0'

/-- Hex digits of a natural number, most significant first (fuel recursion;
the fuel `n+1` always suffices). -/
def hexStrGo : Nat → Nat → List Char
  | 0, _ => []
  | fuel + 1, n => if n = 0 then [] else hexStrGo fuel (n / 16) ++ [hexDigit (n % 16)]

/-- Uppercase hex rendering of a natural number (no padding). -/
def hexStr (n : Nat) : String :=
  if n = 0 then "0" else String.mk (hexStrGo (n + 1) n)

/-- Left-pad a string with zeros to the given width. -/
def padZero (w : Nat) (s : String) : String :=
  String.mk (List.replicate (w - s.length) '0') ++ s

/-- Python `'{:02X}'.format(n)` for an int `n`: zero-padded to width 2, the
zero padding inserted after the sign for negatives. -/
def intFormat02X (n : Int) : String :=
  if n < 0 then "-" ++ padZero 1 (hexStr n.natAbs) else padZero 2 (hexStr n.natAbs)

/-- Two-digit uppercase hex of a natural number (the common nonnegative case
of `intFormat02X`). -/
def toHex2 (n : Nat) : String := padZero 2 (hexStr n)

/-- Python `'{:02X}'.format(q)` applied to one element of the color tuple:
succeeds for ints, raises `ValueError` for a float operand (modelled as a
rational with denominator other than 1; every non-integer the claims touch is
of that form). -/
def pyFormat02X (q : ℚ) : Except String String :=
  if q.den = 1 then .ok (intFormat02X q.num)
  else .error "ValueError: unknown format code X for object of type float"

/-- Model of `color_hex_format` (colors.py lines 1185-1201).  A float-classified input
is first converted with `int_tuple` (which can itself raise, or return `None`
for an empty input -- in which case `len(None)` raises `TypeError`); tuples of
length 3 and 4 are formatted field by field as the f-string does; any other
length returns the empty string. -/
def color_hex_format (ct : List ℚ) : Except String String := do
  let ct2opt ← if is_float_tuple ct then int_tuple ct none else pure (some ct)
  match ct2opt with
  | none => .error "TypeError: object of type NoneType has no len()"
  | some l =>
    match l with
    | [x, y, z] => do
      pure ("#" ++ (← pyFormat02X x) ++ (← pyFormat02X y) ++ (← pyFormat02X z))
    | [x, y, z, w] => do
      pure ("#" ++ (← pyFormat02X x) ++ (← pyFormat02X y) ++ (← pyFormat02X z)
        ++ (← pyFormat02X w))
    | _ => pure ""

/-- Dynamic Python value, used where the source passes heterogeneous
arguments positionally (the `colorsys` calls in `color_complementary`). -/
inductive Py where
  | num (q : ℚ)
  | tup (xs : List Py)
  | lst (xs : List Py)

/-- Arithmetic core of `colorsys.rgb_to_hsv` (CPython), on exact rationals. -/
def rgb_to_hsv_fn (r g b : ℚ) : ℚ × ℚ × ℚ :=
  let maxc := pyMax r (pyMax g b)
  let minc := pyMin r (pyMin g b)
  let rangec := maxc - minc
  let v := maxc
  if minc = maxc then (0, 0, v)
  else
    let s := rangec / maxc
    let rc := (maxc - r) / rangec
    let gc := (maxc - g) / rangec
    let bc := (maxc - b) / rangec
    let h := if r = maxc then bc - gc else if g = maxc then 2 + rc - bc else 4 + gc - rc
    (pyMod1 (h / 6), s, v)

/-- Arithmetic core of `colorsys.hsv_to_rgb` (CPython), on exact rationals.
`i` is always in `0..5` after the `% 6`, so the final branch is the `i = 5`
case. -/
def hsv_to_rgb_fn (h s v : ℚ) : ℚ × ℚ × ℚ :=
  if s = 0 then (v, v, v)
  else
    let i0 := pyInt (h * 6)
    let f := h * 6 - (i0 : ℚ)
    let p := v * (1 - s)
    let q := v * (1 - s * f)
    let t := v * (1 - s * (1 - f))
    let i := i0 % 6
    if i = 0 then (v, t, p)
    else if i = 1 then (q, v, p)
    else if i = 2 then (p, v, t)
    else if i = 3 then (p, q, v)
    else if i = 4 then (t, p, v)
    else (v, p, q)

/-- Model of `colorsys.rgb_to_hsv` as called (positional argument list): it requires
exactly three numeric arguments, otherwise Python raises a `TypeError` before
any arithmetic happens. -/
def colorsys_rgb_to_hsv (args : List Py) : Except String (ℚ × ℚ × ℚ) :=
  match args with
  | [Py.num r, Py.num g, Py.num b] => .ok (rgb_to_hsv_fn r g b)
  | _ => .error "TypeError: rgb_to_hsv() missing 2 required positional arguments"

/-- Model of `colorsys.hsv_to_rgb` as called (positional argument list). -/
def colorsys_hsv_to_rgb (args : List Py) : Except String (ℚ × ℚ × ℚ) :=
  match args with
  | [Py.num h, Py.num s, Py.num v] => .ok (hsv_to_rgb_fn h s v)
  | _ => .error "TypeError: hsv_to_rgb() missing 2 required positional arguments"

/-- Model of `color_complementary` (colors.py lines 1156-1182), transcribed exactly as
written: `rgb_to_hsv(color_tuple[:3])` passes the sliced tuple as ONE
positional argument, and `hsv_to_rgb((comp_hue, s, v))` likewise passes a
single tuple whose first element is the singleton list `comp_hue`. -/
def color_complementary (ct : List ℚ) (degrees : ℚ) : Except String (List (List ℚ)) := do
  let was_int := ! is_float_tuple ct
  let ctFopt ← if was_int then float_tuple ct none else pure (some ct)
  match ctFopt with
  | none => .error "TypeError: NoneType is not subscriptable"
  | some ctF => do
    let (h, s, v) ← colorsys_rgb_to_hsv [Py.tup ((ctF.take 3).map Py.num)]
    let float_distance := degrees / 720
    let comp_hue : List ℚ := [pyMod1 (h + 1/2 - float_distance)]
    let r1 ← colorsys_hsv_to_rgb [Py.tup [Py.lst (comp_hue.map Py.num), Py.num s, Py.num v]]
    let result := [[r1.1, r1.2.1, r1.2.2]]
    let result ← if 0 < degrees then do
        let comp_hue2 : List ℚ := [pyMod1 (h + 1/2 + float_distance)]
        let r2 ← colorsys_hsv_to_rgb
          [Py.tup [Py.lst (comp_hue2.map Py.num), Py.num s, Py.num v]]
        pure (result ++ [[r2.1, r2.2.1, r2.2.2]])
      else pure result
    if was_int then
      result.mapM (fun t => do
        match (← int_tuple t none) with
        | some l => pure l
        | none => .error "TypeError: NoneType is not subscriptable")
    else pure result

/-- ASCII lower-casing, Python `str.casefold` on the strings these claims
touch (character lists; Lean `String.map` is position-recursive and is avoided
so that everything evaluates). -/
def pyCasefold (cs : List Char) : List Char := cs.map Char.toLower

/-- ASCII upper-casing, Python `str.upper` on the strings these claims
touch. -/
def pyUpper (cs : List Char) : List Char := cs.map Char.toUpper

/-- ASCII whitespace, for Python `str.strip`. -/
def is_py_space (c : Char) : Bool :=
  c = ' ' || c = '\t' || c = '\n' || c = '\r'

/-- Python `str.strip()`: drop whitespace at both ends. -/
def pyStrip (cs : List Char) : List Char :=
  ((cs.dropWhile is_py_space).reverse.dropWhile is_py_space).reverse

/-- Python `str.split(",")`: split on every comma; `"".split(",")` is
`[""]`. -/
def splitOnComma (cs : List Char) : List (List Char) :=
  cs.foldr
    (fun c acc =>
      if c = ',' then [] :: acc
      else
        match acc with
        | h :: t => (c :: h) :: t
        | [] => [[c]])
    [[]]

/-- The character class kept by `re.sub(r"[^#0-9a-fA-F,]", "", expr)` in
`color_parse`. -/
def is_kept_char (c : Char) : Bool :=
  c = '#' || c = ',' || c.isDigit || ('a' ≤ c && c ≤ 'f') || ('A' ≤ c && c ≤ 'F')

/-- The `re.sub(r"[^#0-9a-fA-F,]", "", expr)` filter of `color_parse`. -/
def re_sub_keep (cs : List Char) : List Char :=
  cs.filter is_kept_char

/-- Hexadecimal digit test (the bracket class `[0-9a-fA-F]`). -/
def is_hex_char (c : Char) : Bool :=
  c.isDigit || ('a' ≤ c && c ≤ 'f') || ('A' ≤ c && c ≤ 'F')

/-- Numeric value of a hex digit. -/
def hexVal (c : Char) : Nat :=
  if c.isDigit then c.toNat - 48
  else if 'a' ≤ c && c ≤ 'f' then c.toNat - 97 + 10
  else if 'A' ≤ c && c ≤ 'F' then c.toNat - 65 + 10
  else 0

/-- Model of `bytes.fromhex` on an already-hex character run: pairs of digits become
bytes; an odd number of digits raises `ValueError`. -/
def bytes_fromhex : List Char → Except String (List Int)
  | [] => .ok []
  | [_] => .error "ValueError: non-hexadecimal number found in fromhex() arg"
  | c1 :: c2 :: rest => do
    let tl ← bytes_fromhex rest
    pure (((16 * hexVal c1 + hexVal c2 : Nat) : Int) :: tl)

/-- Python `int(s)` on the strings reachable in `color_parse` (after the
`re.sub` filter the only characters are `#`, `,` and hex digits, so the
accepted strings are exactly the nonempty all-decimal-digit ones). -/
def py_int_of_string (cs : List Char) : Except String Int :=
  if cs ≠ [] ∧ cs.all Char.isDigit then
    .ok (cs.foldl (fun acc c => acc * 10 + ((c.toNat : Int) - 48)) 0)
  else .error "ValueError: invalid literal for int()"

/-- Registry members 0..59 in definition order. -/
def REGISTRY_PART0 : List ColorEntry := [
⟨"LIGHTSALMON", 255, 160, 122, true⟩,
  ⟨"DARKSALMON", 233, 150, 122, true⟩,
  ⟨"LIGHTCORAL", 240, 128, 128, true⟩,
  ⟨"SALMON", 250, 128, 114, true⟩,
  ⟨"INDIANRED", 205, 92, 92, true⟩,
  ⟨"CRIMSON", 220, 20, 60, true⟩,
  ⟨"RED", 255, 0, 0, true⟩,
  ⟨"FIREBRICK", 178, 34, 34, true⟩,
  ⟨"DARKRED", 139, 0, 0, true⟩,
  ⟨"MAROON", 128, 0, 0, true⟩,
  ⟨"PINK", 255, 192, 203, true⟩,
  ⟨"LIGHTPINK", 255, 182, 193, true⟩,
  ⟨"HOTPINK", 255, 105, 180, true⟩,
  ⟨"PALEVIOLETRED", 219, 112, 147, true⟩,
  ⟨"DEEPPINK", 255, 20, 147, true⟩,
  ⟨"MEDIUMVIOLETRED", 199, 21, 133, true⟩,
  ⟨"CORAL", 255, 127, 80, true⟩,
  ⟨"TOMATO", 255, 99, 71, true⟩,
  ⟨"ORANGE", 255, 165, 0, true⟩,
  ⟨"DARKORANGE", 255, 140, 0, true⟩,
  ⟨"ORANGERED", 255, 69, 0, true⟩,
  ⟨"LIGHTYELLOW", 255, 255, 224, true⟩,
  ⟨"LIGHTGOLDENRODYELLOW", 250, 250, 210, true⟩,
  ⟨"LEMONCHIFFON", 255, 250, 205, true⟩,
  ⟨"PAPAYAWHIP", 255, 239, 213, true⟩,
  ⟨"MOCCASIN", 255, 228, 181, true⟩,
  ⟨"PEACHPUFF", 255, 218, 185, true⟩,
  ⟨"PALEGOLDENROD", 238, 232, 170, true⟩,
  ⟨"KHAKI", 240, 230, 140, true⟩,
  ⟨"YELLOW", 255, 255, 0, true⟩,
  ⟨"DARKKHAKI", 189, 183, 107, true⟩,
  ⟨"GOLD", 255, 215, 0, true⟩,
  ⟨"LAVENDER", 230, 230, 250, true⟩,
  ⟨"THISTLE", 216, 191, 216, true⟩,
  ⟨"VIOLET", 238, 130, 238, true⟩,
  ⟨"PLUM", 221, 160, 221, true⟩,
  ⟨"ORCHID", 218, 112, 214, true⟩,
  ⟨"MAGENTA", 255, 0, 255, true⟩,
  ⟨"FUCHSIA", 255, 0, 254, true⟩,
  ⟨"MEDIUMORCHID", 186, 85, 211, true⟩,
  ⟨"MEDIUMPURPLE", 147, 112, 219, true⟩,
  ⟨"DARKORCHID", 153, 50, 204, true⟩,
  ⟨"BLUEVIOLET", 138, 43, 226, true⟩,
  ⟨"DARKVIOLET", 148, 0, 211, true⟩,
  ⟨"DARKMAGENTA", 139, 0, 139, true⟩,
  ⟨"PURPLE", 128, 0, 128, true⟩,
  ⟨"INDIGO", 75, 0, 130, true⟩,
  ⟨"PALEGREEN", 152, 251, 152, true⟩,
  ⟨"LIGHTGREEN", 144, 238, 144, true⟩,
  ⟨"MEDIUMAQUAMARINE", 102, 205, 170, true⟩,
  ⟨"GREENYELLOW", 173, 255, 47, true⟩,
  ⟨"DARKSEAGREEN", 143, 188, 143, true⟩,
  ⟨"YELLOWGREEN", 154, 205, 50, true⟩,
  ⟨"MEDIUMSPRINGGREEN", 0, 250, 154, true⟩,
  ⟨"SPRINGGREEN", 0, 255, 127, true⟩,
  ⟨"CHARTREUSE", 127, 255, 0, true⟩,
  ⟨"LIGHTSEAGREEN", 32, 178, 170, true⟩,
  ⟨"LAWNGREEN", 124, 252, 0, true⟩,
  ⟨"MEDIUMSEAGREEN", 60, 179, 113, true⟩,
  ⟨"LIMEGREEN", 50, 205, 50, true⟩
]

/-- Registry members 60..119 in definition order. -/
def REGISTRY_PART1 : List ColorEntry := [
  ⟨"OLIVEDRAB", 107, 142, 35, true⟩,
  ⟨"DARKCYAN", 0, 139, 139, true⟩,
  ⟨"SEAGREEN", 46, 139, 87, true⟩,
  ⟨"TEAL", 0, 128, 128, true⟩,
  ⟨"OLIVE", 128, 128, 0, true⟩,
  ⟨"LIME", 0, 255, 0, true⟩,
  ⟨"DARKOLIVEGREEN", 85, 107, 47, true⟩,
  ⟨"FORESTGREEN", 34, 139, 34, true⟩,
  ⟨"GREEN", 0, 128, 0, true⟩,
  ⟨"DARKGREEN", 0, 100, 0, true⟩,
  ⟨"LIGHTCYAN", 224, 255, 255, true⟩,
  ⟨"PALETURQUOISE", 175, 238, 238, true⟩,
  ⟨"POWDERBLUE", 176, 224, 230, true⟩,
  ⟨"LIGHTBLUE", 173, 216, 230, true⟩,
  ⟨"LIGHTSTEELBLUE", 176, 196, 222, true⟩,
  ⟨"AQUAMARINE", 127, 255, 212, true⟩,
  ⟨"LIGHTSKYBLUE", 135, 206, 250, true⟩,
  ⟨"SKYBLUE", 135, 206, 235, true⟩,
  ⟨"CYAN", 0, 255, 255, true⟩,
  ⟨"AQUA", 0, 255, 254, true⟩,
  ⟨"TURQUOISE", 64, 224, 208, true⟩,
  ⟨"CORNFLOWERBLUE", 100, 149, 237, true⟩,
  ⟨"MEDIUMTURQUOISE", 72, 209, 204, true⟩,
  ⟨"MEDIUMSLATEBLUE", 123, 104, 238, true⟩,
  ⟨"DEEPSKYBLUE", 0, 191, 255, true⟩,
  ⟨"DODGERBLUE", 30, 144, 255, true⟩,
  ⟨"DARKTURQUOISE", 0, 206, 209, true⟩,
  ⟨"CADETBLUE", 95, 158, 160, true⟩,
  ⟨"SLATEBLUE", 106, 90, 205, true⟩,
  ⟨"ROYALBLUE", 65, 105, 225, true⟩,
  ⟨"STEELBLUE", 70, 130, 180, true⟩,
  ⟨"DARKSLATEBLUE", 72, 61, 139, true⟩,
  ⟨"BLUE", 0, 0, 255, true⟩,
  ⟨"MEDIUMBLUE", 0, 0, 205, true⟩,
  ⟨"MIDNIGHTBLUE", 25, 25, 112, true⟩,
  ⟨"DARKBLUE", 0, 0, 139, true⟩,
  ⟨"NAVY", 0, 0, 128, true⟩,
  ⟨"CORNSILK", 255, 248, 220, true⟩,
  ⟨"BLANCHEDALMOND", 255, 235, 205, true⟩,
  ⟨"BISQUE", 255, 228, 196, true⟩,
  ⟨"NAVAJOWHITE", 255, 222, 173, true⟩,
  ⟨"WHEAT", 245, 222, 179, true⟩,
  ⟨"BURLYWOOD", 222, 184, 135, true⟩,
  ⟨"TAN", 210, 180, 140, true⟩,
  ⟨"SANDYBROWN", 244, 164, 96, true⟩,
  ⟨"ROSYBROWN", 188, 143, 143, true⟩,
  ⟨"GOLDENROD", 218, 165, 32, true⟩,
  ⟨"PERU", 205, 133, 63, true⟩,
  ⟨"CHOCOLATE", 210, 105, 30, true⟩,
  ⟨"DARKGOLDENROD", 184, 134, 11, true⟩,
  ⟨"SIENNA", 160, 82, 45, true⟩,
  ⟨"BROWN", 165, 42, 42, true⟩,
  ⟨"SADDLEBROWN", 139, 69, 19, true⟩,
  ⟨"WHITE", 255, 255, 255, true⟩,
  ⟨"SNOW", 255, 250, 250, true⟩,
  ⟨"MINTCREAM", 245, 255, 250, true⟩,
  ⟨"IVORY", 255, 255, 240, true⟩,
  ⟨"GHOSTWHITE", 248, 248, 255, true⟩,
  ⟨"AZURE", 240, 255, 255, true⟩,
  ⟨"FLORALWHITE", 255, 250, 240, true⟩
]

/-- Registry members 120..179 in definition order. -/
def REGISTRY_PART2 : List ColorEntry := [
  ⟨"ALICEBLUE", 240, 248, 255, true⟩,
  ⟨"SEASHELL", 255, 245, 238, true⟩,
  ⟨"LAVENDERBLUSH", 255, 240, 245, true⟩,
  ⟨"WHITESMOKE", 245, 245, 245, true⟩,
  ⟨"HONEYDEW", 240, 255, 240, true⟩,
  ⟨"OLDLACE", 253, 245, 230, true⟩,
  ⟨"LINEN", 250, 240, 230, true⟩,
  ⟨"MISTYROSE", 255, 228, 225, true⟩,
  ⟨"BEIGE", 245, 245, 220, true⟩,
  ⟨"ANTIQUEWHITE", 250, 235, 215, true⟩,
  ⟨"GAINSBORO", 220, 220, 220, true⟩,
  ⟨"LIGHTGRAY", 211, 211, 211, true⟩,
  ⟨"SILVER", 192, 192, 192, true⟩,
  ⟨"DARKGRAY", 169, 169, 169, true⟩,
  ⟨"LIGHTSLATEGRAY", 119, 136, 153, true⟩,
  ⟨"SLATEGRAY", 112, 128, 144, true⟩,
  ⟨"GRAY", 128, 128, 128, true⟩,
  ⟨"DIMGRAY", 105, 105, 105, true⟩,
  ⟨"DARKSLATEGRAY", 47, 79, 79, true⟩,
  ⟨"BLACK", 0, 0, 0, true⟩,
  ⟨"AQUAMARINE2", 118, 238, 198, false⟩,
  ⟨"AQUAMARINE4", 69, 139, 116, false⟩,
  ⟨"ANTIQUEWHITE1", 255, 239, 219, false⟩,
  ⟨"ANTIQUEWHITE2", 238, 223, 204, false⟩,
  ⟨"ANTIQUEWHITE3", 205, 192, 176, false⟩,
  ⟨"ANTIQUEWHITE4", 139, 131, 120, false⟩,
  ⟨"AZURE2", 224, 238, 238, false⟩,
  ⟨"AZURE3", 193, 205, 205, false⟩,
  ⟨"AZURE4", 131, 139, 139, false⟩,
  ⟨"BANANA", 227, 207, 87, false⟩,
  ⟨"BISQUE2", 238, 213, 183, false⟩,
  ⟨"BISQUE3", 205, 183, 158, false⟩,
  ⟨"BISQUE4", 139, 125, 107, false⟩,
  ⟨"BLUE2", 0, 0, 238, false⟩,
  ⟨"BRICK", 156, 102, 31, false⟩,
  ⟨"BROWN1", 255, 64, 64, false⟩,
  ⟨"BROWN2", 238, 59, 59, false⟩,
  ⟨"BROWN3", 205, 51, 51, false⟩,
  ⟨"BROWN4", 139, 35, 35, false⟩,
  ⟨"BURLYWOOD1", 255, 211, 155, false⟩,
  ⟨"BURLYWOOD2", 238, 197, 145, false⟩,
  ⟨"BURLYWOOD3", 205, 170, 125, false⟩,
  ⟨"BURLYWOOD4", 139, 115, 85, false⟩,
  ⟨"BURNTSIENNA", 138, 54, 15, false⟩,
  ⟨"BURNTUMBER", 138, 51, 36, false⟩,
  ⟨"CADETBLUE1", 152, 245, 255, false⟩,
  ⟨"CADETBLUE2", 142, 229, 238, false⟩,
  ⟨"CADETBLUE3", 122, 197, 205, false⟩,
  ⟨"CADETBLUE4", 83, 134, 139, false⟩,
  ⟨"CADMIUMORANGE", 255, 97, 3, false⟩,
  ⟨"CADMIUMYELLOW", 255, 153, 18, false⟩,
  ⟨"CARROT", 237, 145, 33, false⟩,
  ⟨"CHARTREUSE2", 118, 238, 0, false⟩,
  ⟨"CHARTREUSE3", 102, 205, 0, false⟩,
  ⟨"CHARTREUSE4", 69, 139, 0, false⟩,
  ⟨"CHOCOLATE1", 255, 127, 36, false⟩,
  ⟨"CHOCOLATE2", 238, 118, 33, false⟩,
  ⟨"CHOCOLATE3", 205, 102, 29, false⟩,
  ⟨"COBALT", 61, 89, 171, false⟩,
  ⟨"COBALTGREEN", 61, 145, 64, false⟩
]

/-- Registry members 180..239 in definition order. -/
def REGISTRY_PART3 : List ColorEntry := [
  ⟨"COLDGREY", 128, 138, 135, false⟩,
  ⟨"CORAL1", 255, 114, 86, false⟩,
  ⟨"CORAL2", 238, 106, 80, false⟩,
  ⟨"CORAL3", 205, 91, 69, false⟩,
  ⟨"CORAL4", 139, 62, 47, false⟩,
  ⟨"CORNSILK2", 238, 232, 205, false⟩,
  ⟨"CORNSILK3", 205, 200, 177, false⟩,
  ⟨"CORNSILK4", 139, 136, 120, false⟩,
  ⟨"CYAN2", 0, 238, 238, false⟩,
  ⟨"CYAN3", 0, 205, 205, false⟩,
  ⟨"DARKGOLDENROD1", 255, 185, 15, false⟩,
  ⟨"DARKGOLDENROD2", 238, 173, 14, false⟩,
  ⟨"DARKGOLDENROD3", 205, 149, 12, false⟩,
  ⟨"DARKGOLDENROD4", 139, 101, 8, false⟩,
  ⟨"DARKOLIVEGREEN1", 202, 255, 112, false⟩,
  ⟨"DARKOLIVEGREEN2", 188, 238, 104, false⟩,
  ⟨"DARKOLIVEGREEN3", 162, 205, 90, false⟩,
  ⟨"DARKOLIVEGREEN4", 110, 139, 61, false⟩,
  ⟨"DARKORANGE1", 255, 127, 0, false⟩,
  ⟨"DARKORANGE2", 238, 118, 0, false⟩,
  ⟨"DARKORANGE3", 205, 102, 0, false⟩,
  ⟨"DARKORANGE4", 139, 69, 0, false⟩,
  ⟨"DARKORCHID1", 191, 62, 255, false⟩,
  ⟨"DARKORCHID2", 178, 58, 238, false⟩,
  ⟨"DARKORCHID3", 154, 50, 205, false⟩,
  ⟨"DARKORCHID4", 104, 34, 139, false⟩,
  ⟨"DARKSEAGREEN1", 193, 255, 193, false⟩,
  ⟨"DARKSEAGREEN2", 180, 238, 180, false⟩,
  ⟨"DARKSEAGREEN3", 155, 205, 155, false⟩,
  ⟨"DARKSEAGREEN4", 105, 139, 105, false⟩,
  ⟨"DARKSLATEGRAY1", 151, 255, 255, false⟩,
  ⟨"DARKSLATEGRAY2", 141, 238, 238, false⟩,
  ⟨"DARKSLATEGRAY3", 121, 205, 205, false⟩,
  ⟨"DARKSLATEGRAY4", 82, 139, 139, false⟩,
  ⟨"DEEPPINK2", 238, 18, 137, false⟩,
  ⟨"DEEPPINK3", 205, 16, 118, false⟩,
  ⟨"DEEPPINK4", 139, 10, 80, false⟩,
  ⟨"DEEPSKYBLUE2", 0, 178, 238, false⟩,
  ⟨"DEEPSKYBLUE3", 0, 154, 205, false⟩,
  ⟨"DEEPSKYBLUE4", 0, 104, 139, false⟩,
  ⟨"DODGERBLUE2", 28, 134, 238, false⟩,
  ⟨"DODGERBLUE3", 24, 116, 205, false⟩,
  ⟨"DODGERBLUE4", 16, 78, 139, false⟩,
  ⟨"EGGSHELL", 252, 230, 201, false⟩,
  ⟨"EMERALDGREEN", 0, 201, 87, false⟩,
  ⟨"FIREBRICK1", 255, 48, 48, false⟩,
  ⟨"FIREBRICK2", 238, 44, 44, false⟩,
  ⟨"FIREBRICK3", 205, 38, 38, false⟩,
  ⟨"FIREBRICK4", 139, 26, 26, false⟩,
  ⟨"FLESH", 255, 125, 64, false⟩,
  ⟨"GOLD2", 238, 201, 0, false⟩,
  ⟨"GOLD3", 205, 173, 0, false⟩,
  ⟨"GOLD4", 139, 117, 0, false⟩,
  ⟨"GOLDENROD1", 255, 193, 37, false⟩,
  ⟨"GOLDENROD2", 238, 180, 34, false⟩,
  ⟨"GOLDENROD3", 205, 155, 29, false⟩,
  ⟨"GOLDENROD4", 139, 105, 20, false⟩,
  ⟨"GRAY1", 3, 3, 3, false⟩,
  ⟨"GRAY2", 5, 5, 5, false⟩,
  ⟨"GRAY3", 8, 8, 8, false⟩
]

/-- Registry members 240..299 in definition order. -/
def REGISTRY_PART4 : List ColorEntry := [
  ⟨"GRAY4", 10, 10, 10, false⟩,
  ⟨"GRAY5", 13, 13, 13, false⟩,
  ⟨"GRAY6", 15, 15, 15, false⟩,
  ⟨"GRAY7", 18, 18, 18, false⟩,
  ⟨"GRAY8", 20, 20, 20, false⟩,
  ⟨"GRAY9", 23, 23, 23, false⟩,
  ⟨"GRAY10", 26, 26, 26, false⟩,
  ⟨"GRAY11", 28, 28, 28, false⟩,
  ⟨"GRAY12", 31, 31, 31, false⟩,
  ⟨"GRAY13", 33, 33, 33, false⟩,
  ⟨"GRAY14", 36, 36, 36, false⟩,
  ⟨"GRAY15", 38, 38, 38, false⟩,
  ⟨"GRAY16", 41, 41, 41, false⟩,
  ⟨"GRAY17", 43, 43, 43, false⟩,
  ⟨"GRAY18", 46, 46, 46, false⟩,
  ⟨"GRAY19", 48, 48, 48, false⟩,
  ⟨"GRAY20", 51, 51, 51, false⟩,
  ⟨"GRAY21", 54, 54, 54, false⟩,
  ⟨"GRAY22", 56, 56, 56, false⟩,
  ⟨"GRAY23", 59, 59, 59, false⟩,
  ⟨"GRAY24", 61, 61, 61, false⟩,
  ⟨"GRAY25", 64, 64, 64, false⟩,
  ⟨"GRAY26", 66, 66, 66, false⟩,
  ⟨"GRAY27", 69, 69, 69, false⟩,
  ⟨"GRAY28", 71, 71, 71, false⟩,
  ⟨"GRAY29", 74, 74, 74, false⟩,
  ⟨"GRAY30", 77, 77, 77, false⟩,
  ⟨"GRAY31", 79, 79, 79, false⟩,
  ⟨"GRAY32", 82, 82, 82, false⟩,
  ⟨"GRAY33", 84, 84, 84, false⟩,
  ⟨"GRAY34", 87, 87, 87, false⟩,
  ⟨"GRAY35", 89, 89, 89, false⟩,
  ⟨"GRAY36", 92, 92, 92, false⟩,
  ⟨"GRAY37", 94, 94, 94, false⟩,
  ⟨"GRAY38", 97, 97, 97, false⟩,
  ⟨"GRAY39", 99, 99, 99, false⟩,
  ⟨"GRAY40", 102, 102, 102, false⟩,
  ⟨"GRAY42", 107, 107, 107, false⟩,
  ⟨"GRAY43", 110, 110, 110, false⟩,
  ⟨"GRAY44", 112, 112, 112, false⟩,
  ⟨"GRAY45", 115, 115, 115, false⟩,
  ⟨"GRAY46", 117, 117, 117, false⟩,
  ⟨"GRAY47", 120, 120, 120, false⟩,
  ⟨"GRAY48", 122, 122, 122, false⟩,
  ⟨"GRAY49", 125, 125, 125, false⟩,
  ⟨"GRAY50", 127, 127, 127, false⟩,
  ⟨"GRAY51", 130, 130, 130, false⟩,
  ⟨"GRAY52", 133, 133, 133, false⟩,
  ⟨"GRAY53", 135, 135, 135, false⟩,
  ⟨"GRAY54", 138, 138, 138, false⟩,
  ⟨"GRAY55", 140, 140, 140, false⟩,
  ⟨"GRAY56", 143, 143, 143, false⟩,
  ⟨"GRAY57", 145, 145, 145, false⟩,
  ⟨"GRAY58", 148, 148, 148, false⟩,
  ⟨"GRAY59", 150, 150, 150, false⟩,
  ⟨"GRAY60", 153, 153, 153, false⟩,
  ⟨"GRAY61", 156, 156, 156, false⟩,
  ⟨"GRAY62", 158, 158, 158, false⟩,
  ⟨"GRAY63", 161, 161, 161, false⟩,
  ⟨"GRAY64", 163, 163, 163, false⟩
]

/-- Registry members 300..359 in definition order. -/
def REGISTRY_PART5 : List ColorEntry := [
  ⟨"GRAY65", 166, 166, 166, false⟩,
  ⟨"GRAY66", 168, 168, 168, false⟩,
  ⟨"GRAY67", 171, 171, 171, false⟩,
  ⟨"GRAY68", 173, 173, 173, false⟩,
  ⟨"GRAY69", 176, 176, 176, false⟩,
  ⟨"GRAY70", 179, 179, 179, false⟩,
  ⟨"GRAY71", 181, 181, 181, false⟩,
  ⟨"GRAY72", 184, 184, 184, false⟩,
  ⟨"GRAY73", 186, 186, 186, false⟩,
  ⟨"GRAY74", 189, 189, 189, false⟩,
  ⟨"GRAY75", 191, 191, 191, false⟩,
  ⟨"GRAY76", 194, 194, 194, false⟩,
  ⟨"GRAY77", 196, 196, 196, false⟩,
  ⟨"GRAY78", 199, 199, 199, false⟩,
  ⟨"GRAY79", 201, 201, 201, false⟩,
  ⟨"GRAY80", 204, 204, 204, false⟩,
  ⟨"GRAY81", 207, 207, 207, false⟩,
  ⟨"GRAY82", 209, 209, 209, false⟩,
  ⟨"GRAY83", 212, 212, 212, false⟩,
  ⟨"GRAY84", 214, 214, 214, false⟩,
  ⟨"GRAY85", 217, 217, 217, false⟩,
  ⟨"GRAY86", 219, 219, 219, false⟩,
  ⟨"GRAY87", 222, 222, 222, false⟩,
  ⟨"GRAY88", 224, 224, 224, false⟩,
  ⟨"GRAY89", 227, 227, 227, false⟩,
  ⟨"GRAY90", 229, 229, 229, false⟩,
  ⟨"GRAY91", 232, 232, 232, false⟩,
  ⟨"GRAY92", 235, 235, 235, false⟩,
  ⟨"GRAY93", 237, 237, 237, false⟩,
  ⟨"GRAY94", 240, 240, 240, false⟩,
  ⟨"GRAY95", 242, 242, 242, false⟩,
  ⟨"GRAY97", 247, 247, 247, false⟩,
  ⟨"GRAY98", 250, 250, 250, false⟩,
  ⟨"GRAY99", 252, 252, 252, false⟩,
  ⟨"GREEN2", 0, 238, 0, false⟩,
  ⟨"GREEN3", 0, 205, 0, false⟩,
  ⟨"GREEN4", 0, 139, 0, false⟩,
  ⟨"HONEYDEW2", 224, 238, 224, false⟩,
  ⟨"HONEYDEW3", 193, 205, 193, false⟩,
  ⟨"HONEYDEW4", 131, 139, 131, false⟩,
  ⟨"HOTPINK1", 255, 110, 180, false⟩,
  ⟨"HOTPINK2", 238, 106, 167, false⟩,
  ⟨"HOTPINK3", 205, 96, 144, false⟩,
  ⟨"HOTPINK4", 139, 58, 98, false⟩,
  ⟨"INDIANRED1", 255, 106, 106, false⟩,
  ⟨"INDIANRED2", 238, 99, 99, false⟩,
  ⟨"INDIANRED3", 205, 85, 85, false⟩,
  ⟨"INDIANRED4", 139, 58, 58, false⟩,
  ⟨"IVORY2", 238, 238, 224, false⟩,
  ⟨"IVORY3", 205, 205, 193, false⟩,
  ⟨"IVORY4", 139, 139, 131, false⟩,
  ⟨"IVORYBLACK", 41, 36, 33, false⟩,
  ⟨"KHAKI1", 255, 246, 143, false⟩,
  ⟨"KHAKI2", 238, 230, 133, false⟩,
  ⟨"KHAKI3", 205, 198, 115, false⟩,
  ⟨"KHAKI4", 139, 134, 78, false⟩,
  ⟨"LAVENDERBLUSH2", 238, 224, 229, false⟩,
  ⟨"LAVENDERBLUSH3", 205, 193, 197, false⟩,
  ⟨"LAVENDERBLUSH4", 139, 131, 134, false⟩,
  ⟨"LEMONCHIFFON2", 238, 233, 191, false⟩
]

/-- Registry members 360..419 in definition order. -/
def REGISTRY_PART6 : List ColorEntry := [
  ⟨"LEMONCHIFFON3", 205, 201, 165, false⟩,
  ⟨"LEMONCHIFFON4", 139, 137, 112, false⟩,
  ⟨"LIGHTBLUE1", 191, 239, 255, false⟩,
  ⟨"LIGHTBLUE2", 178, 223, 238, false⟩,
  ⟨"LIGHTBLUE3", 154, 192, 205, false⟩,
  ⟨"LIGHTBLUE4", 104, 131, 139, false⟩,
  ⟨"LIGHTCYAN2", 209, 238, 238, false⟩,
  ⟨"LIGHTCYAN3", 180, 205, 205, false⟩,
  ⟨"LIGHTCYAN4", 122, 139, 139, false⟩,
  ⟨"LIGHTGOLDENROD1", 255, 236, 139, false⟩,
  ⟨"LIGHTGOLDENROD2", 238, 220, 130, false⟩,
  ⟨"LIGHTGOLDENROD3", 205, 190, 112, false⟩,
  ⟨"LIGHTGOLDENROD4", 139, 129, 76, false⟩,
  ⟨"LIGHTPINK1", 255, 174, 185, false⟩,
  ⟨"LIGHTPINK2", 238, 162, 173, false⟩,
  ⟨"LIGHTPINK3", 205, 140, 149, false⟩,
  ⟨"LIGHTPINK4", 139, 95, 101, false⟩,
  ⟨"LIGHTSALMON2", 238, 149, 114, false⟩,
  ⟨"LIGHTSALMON3", 205, 129, 98, false⟩,
  ⟨"LIGHTSALMON4", 139, 87, 66, false⟩,
  ⟨"LIGHTSKYBLUE1", 176, 226, 255, false⟩,
  ⟨"LIGHTSKYBLUE2", 164, 211, 238, false⟩,
  ⟨"LIGHTSKYBLUE3", 141, 182, 205, false⟩,
  ⟨"LIGHTSKYBLUE4", 96, 123, 139, false⟩,
  ⟨"LIGHTSLATEBLUE", 132, 112, 255, false⟩,
  ⟨"LIGHTSTEELBLUE1", 202, 225, 255, false⟩,
  ⟨"LIGHTSTEELBLUE2", 188, 210, 238, false⟩,
  ⟨"LIGHTSTEELBLUE3", 162, 181, 205, false⟩,
  ⟨"LIGHTSTEELBLUE4", 110, 123, 139, false⟩,
  ⟨"LIGHTYELLOW2", 238, 238, 209, false⟩,
  ⟨"LIGHTYELLOW3", 205, 205, 180, false⟩,
  ⟨"LIGHTYELLOW4", 139, 139, 122, false⟩,
  ⟨"MAGENTA2", 238, 0, 238, false⟩,
  ⟨"MAGENTA3", 205, 0, 205, false⟩,
  ⟨"MANGANESEBLUE", 3, 168, 158, false⟩,
  ⟨"MAROON1", 255, 52, 179, false⟩,
  ⟨"MAROON2", 238, 48, 167, false⟩,
  ⟨"MAROON3", 205, 41, 144, false⟩,
  ⟨"MAROON4", 139, 28, 98, false⟩,
  ⟨"MEDIUMORCHID1", 224, 102, 255, false⟩,
  ⟨"MEDIUMORCHID2", 209, 95, 238, false⟩,
  ⟨"MEDIUMORCHID3", 180, 82, 205, false⟩,
  ⟨"MEDIUMORCHID4", 122, 55, 139, false⟩,
  ⟨"MEDIUMPURPLE1", 171, 130, 255, false⟩,
  ⟨"MEDIUMPURPLE2", 159, 121, 238, false⟩,
  ⟨"MEDIUMPURPLE3", 137, 104, 205, false⟩,
  ⟨"MEDIUMPURPLE4", 93, 71, 139, false⟩,
  ⟨"MELON", 227, 168, 105, false⟩,
  ⟨"MINT", 189, 252, 201, false⟩,
  ⟨"MISTYROSE2", 238, 213, 210, false⟩,
  ⟨"MISTYROSE3", 205, 183, 181, false⟩,
  ⟨"MISTYROSE4", 139, 125, 123, false⟩,
  ⟨"NAVAJOWHITE2", 238, 207, 161, false⟩,
  ⟨"NAVAJOWHITE3", 205, 179, 139, false⟩,
  ⟨"NAVAJOWHITE4", 139, 121, 94, false⟩,
  ⟨"OLIVEDRAB1", 192, 255, 62, false⟩,
  ⟨"OLIVEDRAB2", 179, 238, 58, false⟩,
  ⟨"OLIVEDRAB4", 105, 139, 34, false⟩,
  ⟨"ORANGE2", 238, 154, 0, false⟩,
  ⟨"ORANGE3", 205, 133, 0, false⟩
]

/-- Registry members 420..479 in definition order. -/
def REGISTRY_PART7 : List ColorEntry := [
  ⟨"ORANGE4", 139, 90, 0, false⟩,
  ⟨"ORANGERED2", 238, 64, 0, false⟩,
  ⟨"ORANGERED3", 205, 55, 0, false⟩,
  ⟨"ORANGERED4", 139, 37, 0, false⟩,
  ⟨"ORCHID1", 255, 131, 250, false⟩,
  ⟨"ORCHID2", 238, 122, 233, false⟩,
  ⟨"ORCHID3", 205, 105, 201, false⟩,
  ⟨"ORCHID4", 139, 71, 137, false⟩,
  ⟨"PALEGREEN1", 154, 255, 154, false⟩,
  ⟨"PALEGREEN3", 124, 205, 124, false⟩,
  ⟨"PALEGREEN4", 84, 139, 84, false⟩,
  ⟨"PALETURQUOISE1", 187, 255, 255, false⟩,
  ⟨"PALETURQUOISE2", 174, 238, 238, false⟩,
  ⟨"PALETURQUOISE3", 150, 205, 205, false⟩,
  ⟨"PALETURQUOISE4", 102, 139, 139, false⟩,
  ⟨"PALEVIOLETRED1", 255, 130, 171, false⟩,
  ⟨"PALEVIOLETRED2", 238, 121, 159, false⟩,
  ⟨"PALEVIOLETRED3", 205, 104, 137, false⟩,
  ⟨"PALEVIOLETRED4", 139, 71, 93, false⟩,
  ⟨"PEACHPUFF2", 238, 203, 173, false⟩,
  ⟨"PEACHPUFF3", 205, 175, 149, false⟩,
  ⟨"PEACHPUFF4", 139, 119, 101, false⟩,
  ⟨"PEACOCK", 51, 161, 201, false⟩,
  ⟨"PINK1", 255, 181, 197, false⟩,
  ⟨"PINK2", 238, 169, 184, false⟩,
  ⟨"PINK3", 205, 145, 158, false⟩,
  ⟨"PINK4", 139, 99, 108, false⟩,
  ⟨"PLUM1", 255, 187, 255, false⟩,
  ⟨"PLUM2", 238, 174, 238, false⟩,
  ⟨"PLUM3", 205, 150, 205, false⟩,
  ⟨"PLUM4", 139, 102, 139, false⟩,
  ⟨"PURPLE1", 155, 48, 255, false⟩,
  ⟨"PURPLE2", 145, 44, 238, false⟩,
  ⟨"PURPLE3", 125, 38, 205, false⟩,
  ⟨"PURPLE4", 85, 26, 139, false⟩,
  ⟨"RASPBERRY", 135, 38, 87, false⟩,
  ⟨"RAWSIENNA", 199, 97, 20, false⟩,
  ⟨"REBECCAPURPLE", 102, 51, 153, false⟩,
  ⟨"RED2", 238, 0, 0, false⟩,
  ⟨"RED3", 205, 0, 0, false⟩,
  ⟨"ROSYBROWN1", 255, 193, 193, false⟩,
  ⟨"ROSYBROWN2", 238, 180, 180, false⟩,
  ⟨"ROSYBROWN3", 205, 155, 155, false⟩,
  ⟨"ROSYBROWN4", 139, 105, 105, false⟩,
  ⟨"ROYALBLUE1", 72, 118, 255, false⟩,
  ⟨"ROYALBLUE2", 67, 110, 238, false⟩,
  ⟨"ROYALBLUE3", 58, 95, 205, false⟩,
  ⟨"ROYALBLUE4", 39, 64, 139, false⟩,
  ⟨"SALMON1", 255, 140, 105, false⟩,
  ⟨"SALMON2", 238, 130, 98, false⟩,
  ⟨"SALMON3", 205, 112, 84, false⟩,
  ⟨"SALMON4", 139, 76, 57, false⟩,
  ⟨"SAPGREEN", 48, 128, 20, false⟩,
  ⟨"SEAGREEN1", 84, 255, 159, false⟩,
  ⟨"SEAGREEN2", 78, 238, 148, false⟩,
  ⟨"SEAGREEN3", 67, 205, 128, false⟩,
  ⟨"SEASHELL2", 238, 229, 222, false⟩,
  ⟨"SEASHELL3", 205, 197, 191, false⟩,
  ⟨"SEASHELL4", 139, 134, 130, false⟩,
  ⟨"SEPIA", 94, 38, 18, false⟩
]

/-- Registry members 480..539 in definition order. -/
def REGISTRY_PART8 : List ColorEntry := [
  ⟨"SGIBEET", 142, 56, 142, false⟩,
  ⟨"SGIBRIGHTGRAY", 197, 193, 170, false⟩,
  ⟨"SGICHARTREUSE", 113, 198, 113, false⟩,
  ⟨"SGIDARKGRAY", 85, 85, 85, false⟩,
  ⟨"SGIGRAY12", 30, 30, 30, false⟩,
  ⟨"SGIGRAY16", 40, 40, 40, false⟩,
  ⟨"SGIGRAY32", 81, 81, 81, false⟩,
  ⟨"SGIGRAY36", 91, 91, 91, false⟩,
  ⟨"SGIGRAY52", 132, 132, 132, false⟩,
  ⟨"SGIGRAY56", 142, 142, 142, false⟩,
  ⟨"SGIGRAY72", 183, 183, 183, false⟩,
  ⟨"SGIGRAY76", 193, 193, 193, false⟩,
  ⟨"SGIGRAY92", 234, 234, 234, false⟩,
  ⟨"SGIGRAY96", 244, 244, 244, false⟩,
  ⟨"SGILIGHTBLUE", 125, 158, 192, false⟩,
  ⟨"SGILIGHTGRAY", 170, 170, 170, false⟩,
  ⟨"SGIOLIVEDRAB", 142, 142, 56, false⟩,
  ⟨"SGISALMON", 198, 113, 113, false⟩,
  ⟨"SGISLATEBLUE", 113, 113, 198, false⟩,
  ⟨"SGITEAL", 56, 142, 142, false⟩,
  ⟨"SIENNA1", 255, 130, 71, false⟩,
  ⟨"SIENNA2", 238, 121, 66, false⟩,
  ⟨"SIENNA3", 205, 104, 57, false⟩,
  ⟨"SIENNA4", 139, 71, 38, false⟩,
  ⟨"SKYBLUE1", 135, 206, 255, false⟩,
  ⟨"SKYBLUE2", 126, 192, 238, false⟩,
  ⟨"SKYBLUE3", 108, 166, 205, false⟩,
  ⟨"SKYBLUE4", 74, 112, 139, false⟩,
  ⟨"SLATEBLUE1", 131, 111, 255, false⟩,
  ⟨"SLATEBLUE2", 122, 103, 238, false⟩,
  ⟨"SLATEBLUE3", 105, 89, 205, false⟩,
  ⟨"SLATEBLUE4", 71, 60, 139, false⟩,
  ⟨"SLATEGRAY1", 198, 226, 255, false⟩,
  ⟨"SLATEGRAY2", 185, 211, 238, false⟩,
  ⟨"SLATEGRAY3", 159, 182, 205, false⟩,
  ⟨"SLATEGRAY4", 108, 123, 139, false⟩,
  ⟨"SNOW2", 238, 233, 233, false⟩,
  ⟨"SNOW3", 205, 201, 201, false⟩,
  ⟨"SNOW4", 139, 137, 137, false⟩,
  ⟨"SPRINGGREEN1", 0, 238, 118, false⟩,
  ⟨"SPRINGGREEN2", 0, 205, 102, false⟩,
  ⟨"SPRINGGREEN3", 0, 139, 69, false⟩,
  ⟨"STEELBLUE1", 99, 184, 255, false⟩,
  ⟨"STEELBLUE2", 92, 172, 238, false⟩,
  ⟨"STEELBLUE3", 79, 148, 205, false⟩,
  ⟨"STEELBLUE4", 54, 100, 139, false⟩,
  ⟨"TAN1", 255, 165, 79, false⟩,
  ⟨"TAN2", 238, 154, 73, false⟩,
  ⟨"TAN4", 139, 90, 43, false⟩,
  ⟨"THISTLE1", 255, 225, 255, false⟩,
  ⟨"THISTLE2", 238, 210, 238, false⟩,
  ⟨"THISTLE3", 205, 181, 205, false⟩,
  ⟨"THISTLE4", 139, 123, 139, false⟩,
  ⟨"TOMATO2", 238, 92, 66, false⟩,
  ⟨"TOMATO3", 205, 79, 57, false⟩,
  ⟨"TOMATO4", 139, 54, 38, false⟩,
  ⟨"TURQUOISE1", 0, 245, 255, false⟩,
  ⟨"TURQUOISE2", 0, 229, 238, false⟩,
  ⟨"TURQUOISE3", 0, 197, 205, false⟩,
  ⟨"TURQUOISE4", 0, 134, 139, false⟩
]

/-- Registry members 540..553 in definition order. -/
def REGISTRY_PART9 : List ColorEntry := [
  ⟨"TURQUOISEBLUE", 0, 199, 140, false⟩,
  ⟨"VIOLETRED", 208, 32, 144, false⟩,
  ⟨"VIOLETRED1", 255, 62, 150, false⟩,
  ⟨"VIOLETRED2", 238, 58, 140, false⟩,
  ⟨"VIOLETRED3", 205, 50, 120, false⟩,
  ⟨"VIOLETRED4", 139, 34, 82, false⟩,
  ⟨"WARMGREY", 128, 128, 105, false⟩,
  ⟨"WHEAT1", 255, 231, 186, false⟩,
  ⟨"WHEAT2", 238, 216, 174, false⟩,
  ⟨"WHEAT3", 205, 186, 150, false⟩,
  ⟨"WHEAT4", 139, 126, 102, false⟩,
  ⟨"YELLOW2", 238, 238, 0, false⟩,
  ⟨"YELLOW3", 205, 205, 0, false⟩,
  ⟨"YELLOW4", 139, 139, 0, false⟩
]

/-- The `NamedColor` registry, in definition order (colors.py lines 85-668).
`true` is `STANDARD`, `false` is `EXTRA`; 554 members, the first 140 standard,
`BLACK` the last standard member. -/
def REGISTRY : List ColorEntry :=
  REGISTRY_PART0 ++ REGISTRY_PART1 ++ REGISTRY_PART2 ++ REGISTRY_PART3 ++ REGISTRY_PART4 ++ REGISTRY_PART5 ++ REGISTRY_PART6 ++ REGISTRY_PART7 ++ REGISTRY_PART8 ++ REGISTRY_PART9

/-- The first registry member (`LIGHTSALMON`), used as a concrete witness. -/
def LIGHTSALMON : ColorEntry := ⟨"LIGHTSALMON", 255, 160, 122, true⟩

/-- The `CYAN` member (earlier-defined of the CYAN/AQUA near-duplicates). -/
def CYAN : ColorEntry := ⟨"CYAN", 0, 255, 255, true⟩

/-- The `BLACK` member: the sentinel of the `only_standard` break in
`by_value` (last STANDARD member). -/
def BLACK : ColorEntry := ⟨"BLACK", 0, 0, 0, true⟩

/-- The `AQUAMARINE2` member: the first EXTRA (non-standard) member. -/
def AQUAMARINE2 : ColorEntry := ⟨"AQUAMARINE2", 118, 238, 198, false⟩

/-- Model of `GWEnum.by_name` / `enum_by_name` (enums.py lines 13-33) specialised to
`NamedColor`: exact member-name lookup, then with the name casefolded, then
upper-cased; `None` when all three miss. -/
def by_name (name : List Char) : Option ColorEntry :=
  let n := pyStrip name
  match REGISTRY.find? (fun e => e.name.data == n) with
  | some e => some e
  | none =>
    match REGISTRY.find? (fun e => e.name.data == pyCasefold n) with
    | some e => some e
    | none => REGISTRY.find? (fun e => e.name.data == pyUpper n)

/-- Model of `color_parse` (colors.py lines 865-938) for a string `expr` (the claims
quantify over string inputs).  `colormap2` is modelled as an association list
with string values; `dflt` is the `default` argument, modelled as an optional
int tuple (the claims pass tuples or `None`).  An empty `expr` takes the
`if not expr: expr = default` branch and the (possibly empty) default tuple
is passed through the `isinstance(expr, tuple)` branch. -/
def color_parse (expr : String) (colormap2 : List (String × String))
    (dflt : Option (List Int)) : Except String (Option (List Int)) :=
  if expr.data.isEmpty then
    match dflt with
    | none => .ok none
    | some t => if t = [] then .ok none else .ok (some t)
  else
    let e1 := pyCasefold (pyStrip expr.data)
    let e2 := match (colormap2.find? (fun p => p.1.data == e1)) with
      | some p => pyCasefold (pyStrip p.2.data)
      | none => e1
    match by_name e2 with
    | some c => .ok (some [c.red, c.green, c.blue])
    | none =>
      let filtered := re_sub_keep e2
      let cs1 := match filtered with
        | '#' :: rest => rest
        | _ => filtered
      let run := cs1.takeWhile is_hex_char
      if 6 ≤ run.length then do
        let b ← bytes_fromhex (run.take 8)
        pure (some b)
      else
        let parts := splitOnComma filtered
        if 3 ≤ parts.length then do
          let vals ← parts.mapM py_int_of_string
          pure (some vals)
        else
          .ok none

/-- Squared Euclidean RGB distance: the exact-arithmetic image of
`color_distance` (colors.py lines 1204-1218) under `x ↦ x²`; see the header
comment for why every comparison in `by_value` is preserved. -/
def color_distance_sq (v : Int × Int × Int) (w : Int × Int × Int) : Int :=
  (v.1 - w.1) ^ 2 + (v.2.1 - w.2.1) ^ 2 + (v.2.2 - w.2.2) ^ 2

/-- The scan loop of `NamedColor.by_value` (colors.py lines 844-856), with
the squared distance: return the first member at distance 0 immediately,
otherwise track the strictly-closest member seen so far; with
`only_standard`, stop after the `BLACK` member. -/
def by_value_scan (v : Int × Int × Int) (only_standard : Bool) :
    List ColorEntry → Option ColorEntry → Int → Option ColorEntry
  | [], best, _ => best
  | e :: rest, best, bestOff =>
    let off := color_distance_sq v (e.red, e.green, e.blue)
    if off = 0 then some e
    else
      let p := if off < bestOff then (some e, off) else (best, bestOff)
      if only_standard && (e == BLACK) then p.1
      else by_value_scan v only_standard rest p.1 p.2

/-- The tuple path of `by_value`: `color_distance(value, ...)` unpacks
`value[:3]`, raising when the tuple has fewer than three elements; the scan
starts with no best match and the bound `99999` (squared here). -/
def by_value_tuple (t : List Int) (only_standard : Bool) :
    Except String (Option ColorEntry) :=
  match t with
  | r :: g :: b :: _ => .ok (by_value_scan (r, g, b) only_standard REGISTRY none (99999 ^ 2))
  | _ => .error "ValueError: not enough values to unpack"

/-- The first positional argument of `NamedColor.by_value` as the source
type-switches on it: `None`, an int (with the remaining positional values),
a string, a tuple, or a `NamedColor` member itself. -/
inductive ByValueArg where
  | pyNone
  | pyIntVal (n : Int) (args : List Int)
  | pyStr (s : String)
  | pyTuple (t : List Int)
  | pyEnum (e : ColorEntry)

/-- Model of `NamedColor.by_value` (colors.py lines 809-856).  `None` returns `None`;
an int is packed with the extra positional values; a string is routed through
`color_parse` (an unparsable string leaves `value = None`, and
`color_distance(None, ...)` then raises `TypeError`); any other non-tuple
type -- including a `NamedColor` member -- raises `ValueError`. -/
def by_value (value : ByValueArg) (only_standard : Bool) :
    Except String (Option ColorEntry) :=
  match value with
  | .pyNone => .ok none
  | .pyIntVal n args => by_value_tuple (n :: args) only_standard
  | .pyTuple t => by_value_tuple t only_standard
  | .pyStr s => do
    match (← color_parse s [] none) with
    | some t => by_value_tuple t only_standard
    | none => .error "TypeError: NoneType is not subscriptable"
  | .pyEnum _ => .error "ValueError: invalid type for the first positional argument of by_value()"

/-- Python truthiness of a bound-method object: always `True`.  In
`all_colors` the filter reads `if not only_standard or e.is_standard:` where
`e.is_standard` is an uncalled bound method, hence always truthy. -/
def bound_method_truthy : Bool := true

/-- The selection loop of `NamedColor.all_colors` (colors.py lines 802-805),
before the sort (the sort only permutes the selection). -/
def all_colors_selection (only_standard : Bool) : List ColorEntry :=
  REGISTRY.filter (fun _e => !only_standard || bound_method_truthy)

/-- The composition `int_tuple(float_tuple(t))` from the round-trip claim:
a `None` result of `float_tuple` is fed to `int_tuple`, whose falsy-input
branch returns `None`. -/
def c2_roundtrip (l : List ℚ) : Except String (Option (List ℚ)) := do
  match (← float_tuple l none) with
  | none => int_tuple [] none
  | some m => int_tuple m none

/-- Whether an `Except` value is an error (a raised exception). -/
def isErrB : Except String (Option (List ℚ)) → Bool
  | .error _ => true
  | .ok _ => false

end Kivygw
namespace Kivygw

theorem list_find?_congr {α : Type} (p q : α → Bool) (h : ∀ x, p x = q x) :
    ∀ l : List α, l.find? p = l.find? q := by
  intro l
  induction l with
  | nil => rfl
  | cons a t ih => simp [List.find?, h a, ih]

theorem list_find?_exists_of_mem {α : Type} (p : α → Bool) {x : α} :
    ∀ {l : List α}, x ∈ l → p x = true → ∃ y, l.find? p = some y := by
  intro l hx hp
  induction l with
  | nil => cases hx
  | cons a t ih =>
    by_cases ha : p a = true
    · exact ⟨a, List.find?_cons_of_pos _ ha⟩
    · rcases List.mem_cons.mp hx with rfl | hmem
      · exact absurd hp ha
      · obtain ⟨y, hy⟩ := ih hmem
        exact ⟨y, by rw [List.find?_cons_of_neg _ (by simpa using ha), hy]⟩

theorem color_distance_sq_eq_zero_iff (v w : Int × Int × Int) :
    color_distance_sq v w = 0 ↔ v = w := by
  rcases v with ⟨v1, v2, v3⟩
  rcases w with ⟨w1, w2, w3⟩
  unfold color_distance_sq
  constructor
  · intro h
    have h1 : (v1 - w1) ^ 2 = 0 := by
      nlinarith [sq_nonneg (v1 - w1), sq_nonneg (v2 - w2), sq_nonneg (v3 - w3)]
    have h2 : (v2 - w2) ^ 2 = 0 := by
      nlinarith [sq_nonneg (v1 - w1), sq_nonneg (v2 - w2), sq_nonneg (v3 - w3)]
    have h3 : (v3 - w3) ^ 2 = 0 := by
      nlinarith [sq_nonneg (v1 - w1), sq_nonneg (v2 - w2), sq_nonneg (v3 - w3)]
    have e1 : v1 = w1 := by
      have := pow_eq_zero_iff (n := 2) (by norm_num) |>.mp h1
      omega
    have e2 : v2 = w2 := by
      have := pow_eq_zero_iff (n := 2) (by norm_num) |>.mp h2
      omega
    have e3 : v3 = w3 := by
      have := pow_eq_zero_iff (n := 2) (by norm_num) |>.mp h3
      omega
    simp [e1, e2, e3]
  · rintro h
    rw [Prod.mk.injEq, Prod.mk.injEq] at h
    obtain ⟨e1, e2, e3⟩ := h
    subst e1; subst e2; subst e3
    ring

theorem by_value_scan_finds_exact (v : Int × Int × Int) :
    ∀ (l : List ColorEntry) (best : Option ColorEntry) (bestOff : Int),
      (∃ x ∈ l, color_distance_sq v (x.red, x.green, x.blue) = 0) →
      by_value_scan v false l best bestOff
        = l.find? (fun x => color_distance_sq v (x.red, x.green, x.blue) == 0) := by
  intro l
  induction l with
  | nil => intro best bestOff h; simp at h
  | cons e rest ih =>
    intro best bestOff h
    by_cases he : color_distance_sq v (e.red, e.green, e.blue) = 0
    · simp [by_value_scan, he, List.find?_cons_of_pos]
    · have h2 : ∃ x ∈ rest, color_distance_sq v (x.red, x.green, x.blue) = 0 := by
        obtain ⟨x, hx, hx0⟩ := h
        rcases List.mem_cons.mp hx with rfl | hmem
        · exact absurd hx0 he
        · exact ⟨x, hmem, hx0⟩
      rw [List.find?_cons_of_neg _ (by simpa using he)]
      simp only [by_value_scan, if_neg he, Bool.false_and, if_neg (Bool.false_ne_true)]
      exact ih _ _ h2

/-- C1: for every registry entry `e`, `NamedColor.by_value` applied to `e`'s
exact RGB triple returns the earliest-defined registry entry whose RGB triple
equals it (the scan proceeds in definition order, and on integer inputs being
within the 0.001 epsilon means distance exactly 0, which short-circuits);
consequently `by_value(e.rgb) = e` whenever `e`'s triple is unique in the
registry. -/
theorem by_value_exact_rgb_returns_first_defined (e : ColorEntry) (he : e ∈ REGISTRY) :
    by_value (.pyTuple [e.red, e.green, e.blue]) false
      = .ok (REGISTRY.find? (fun x => x.red == e.red && x.green == e.green && x.blue == e.blue))
    ∧ ((∀ x ∈ REGISTRY, x.red = e.red → x.green = e.green → x.blue = e.blue → x = e) →
        by_value (.pyTuple [e.red, e.green, e.blue]) false = .ok (some e)) := by
  have hself : color_distance_sq (e.red, e.green, e.blue) (e.red, e.green, e.blue) = 0 :=
    (color_distance_sq_eq_zero_iff _ _).mpr rfl
  have hex : ∃ x ∈ REGISTRY, color_distance_sq (e.red, e.green, e.blue) (x.red, x.green, x.blue) = 0 :=
    ⟨e, he, hself⟩
  have hpq : ∀ x : ColorEntry,
      (color_distance_sq (e.red, e.green, e.blue) (x.red, x.green, x.blue) == 0)
        = (x.red == e.red && x.green == e.green && x.blue == e.blue) := by
    intro x
    apply Bool.eq_iff_iff.mpr
    rw [beq_iff_eq, color_distance_sq_eq_zero_iff]
    simp only [Bool.and_eq_true, beq_iff_eq, Prod.mk.injEq]
    omega
  have hstep : by_value (.pyTuple [e.red, e.green, e.blue]) false
      = .ok (by_value_scan (e.red, e.green, e.blue) false REGISTRY none (99999 ^ 2)) := rfl
  have hmain : by_value (.pyTuple [e.red, e.green, e.blue]) false
      = .ok (REGISTRY.find? (fun x => x.red == e.red && x.green == e.green && x.blue == e.blue)) := by
    rw [hstep, by_value_scan_finds_exact _ _ _ _ hex, list_find?_congr _ _ hpq]
  refine ⟨hmain, fun huniq => ?_⟩
  obtain ⟨y, hy⟩ := list_find?_exists_of_mem
    (fun x : ColorEntry => x.red == e.red && x.green == e.green && x.blue == e.blue) he (by simp)
  have hyq := List.find?_some hy
  have hymem := List.mem_of_find?_eq_some hy
  simp only [Bool.and_eq_true, beq_iff_eq] at hyq
  have hye : y = e := huniq y hymem hyq.1.1 hyq.1.2 hyq.2
  rw [hmain, hy, hye]

/-- Witness for C1 at the `CYAN` entry (the earlier-defined of the CYAN/AQUA
near-duplicate pair the spec singles out). -/
theorem by_value_exact_rgb_returns_first_defined_witness :
    CYAN ∈ REGISTRY
    ∧ (by_value (.pyTuple [CYAN.red, CYAN.green, CYAN.blue]) false
        = .ok (REGISTRY.find? (fun x => x.red == CYAN.red && x.green == CYAN.green && x.blue == CYAN.blue))
      ∧ ((∀ x ∈ REGISTRY, x.red = CYAN.red → x.green = CYAN.green → x.blue = CYAN.blue → x = CYAN) →
          by_value (.pyTuple [CYAN.red, CYAN.green, CYAN.blue]) false = .ok (some CYAN))) :=
  ⟨by decide, by_value_exact_rgb_returns_first_defined CYAN (by decide)⟩


/-- C4 (code bug): `color_complementary` raises a `TypeError` for every 3- or
4-element color tuple, because `rgb_to_hsv(color_tuple[:3])` passes the sliced
tuple as a single positional argument instead of unpacking it; the claim (and
the function's own docstring) say it returns one hue-rotated color for
`degrees = 0`. -/
theorem color_complementary_always_raises (ct : List ℚ) (degrees : ℚ)
    (h : ct.length = 3 ∨ ct.length = 4) :
    color_complementary ct degrees
      = .error "TypeError: rgb_to_hsv() missing 2 required positional arguments" := by
  rcases ct with _ | ⟨a, _ | ⟨b, _ | ⟨c, _ | ⟨d, rest⟩⟩⟩⟩ <;> simp at h
  · by_cases hf : is_float_tuple [a, b, c]
    · simp [color_complementary, hf, colorsys_rgb_to_hsv, Bind.bind, Except.bind, Pure.pure, Except.pure]
    · simp [color_complementary, hf, float_tuple, colorsys_rgb_to_hsv, Bind.bind, Except.bind]
  · rcases rest with _ | ⟨e, rest2⟩
    · by_cases hf : is_float_tuple [a, b, c, d]
      · simp [color_complementary, hf, colorsys_rgb_to_hsv, Bind.bind, Except.bind, Pure.pure, Except.pure]
      · simp [color_complementary, hf, float_tuple, colorsys_rgb_to_hsv, Bind.bind, Except.bind]
    · simp at h

/-- Witness for C4 at pure red with `degrees = 0` (the spec's concrete
scenario). -/
theorem color_complementary_always_raises_witness :
    (([(255 : ℚ), 0, 0] : List ℚ).length = 3 ∨ ([(255 : ℚ), 0, 0] : List ℚ).length = 4)
    ∧ color_complementary [255, 0, 0] 0
        = .error "TypeError: rgb_to_hsv() missing 2 required positional arguments" :=
  ⟨Or.inl rfl, color_complementary_always_raises [255, 0, 0] 0 (Or.inl rfl)⟩

set_option maxRecDepth 8000 in
/-- C5 (code bug): a string matching none of the recognized forms makes
`color_parse` return `None` even when a non-`None` `default` was supplied
(the default is consulted only when the input itself is falsy), and some
unmatched strings (three or more comma-separated non-numeric fields, e.g.
"a,b,c") make it raise `ValueError` from `int()`; the claim (and the
function's docstring) say the caller-specified default is returned and
nothing raises. -/
theorem color_parse_unmatched_ignores_default_and_raises :
    color_parse "zzz" [] (some [1, 2, 3]) = .ok none
    ∧ color_parse "a,b,c" [] none = .error "ValueError: invalid literal for int()" :=
  ⟨rfl, rfl⟩

/-- C7 counterexample: passing the registry entry `CYAN` itself to `by_value`
raises `ValueError` instead of returning the entry, refuting the claim at a
concrete input. -/
theorem by_value_entry_argument_counterexample :
    by_value (.pyEnum CYAN) false
      = .error "ValueError: invalid type for the first positional argument of by_value()"
    ∧ (Except.error "ValueError: invalid type for the first positional argument of by_value()"
        : Except String (Option ColorEntry)) ≠ .ok (some CYAN) :=
  ⟨rfl, fun h => Except.noConfusion h⟩

/-- C7 (amended): for every registry entry `e`, passing `e` itself as the
`value` argument of `by_value` raises `ValueError` (the type switch accepts
only `None`, int, str and tuple), rather than returning `e`. -/
theorem by_value_entry_argument_raises (e : ColorEntry) :
    by_value (.pyEnum e) false
      = .error "ValueError: invalid type for the first positional argument of by_value()" := rfl

/-- C8 (code bug): the `only_standard=True` filter of `all_colors` excludes
nothing -- the selection equals the whole registry and contains the EXTRA
entry `AQUAMARINE2` -- because `e.is_standard` in the filter condition is an
uncalled bound method, which is always truthy. -/
theorem all_colors_only_standard_ineffective :
    all_colors_selection true = REGISTRY
    ∧ AQUAMARINE2 ∈ all_colors_selection true
    ∧ AQUAMARINE2.standard = false := by
  have h : all_colors_selection true = REGISTRY := by
    simp [all_colors_selection, bound_method_truthy]
  refine ⟨h, ?_, rfl⟩
  rw [h]
  decide

/-- C9: overriding `alpha` with `0.0` (or `0`) behaves exactly as passing no
override at all, for every input tuple: the override is tested for
truthiness, and `0.0` is falsy, so a fully transparent alpha cannot be
requested. -/
theorem float_tuple_alpha_zero_as_none (ct : List ℚ) :
    float_tuple ct (some 0) = float_tuple ct none := by
  rcases ct with _ | ⟨a, _ | ⟨b, _ | ⟨c, _ | ⟨d, rest⟩⟩⟩⟩ <;>
    simp [float_tuple, float_tuple_core, pyTruthy]

theorem pyInt_natCast (n : ℕ) : pyInt (n : ℚ) = n := by
  simp [pyInt]

theorem float_color_natCast (n : ℕ) (h : n ≤ 255) : float_color (n : ℚ) = (n : ℚ) / 255 := by
  unfold float_color pyMin
  rw [if_pos]
  rw [div_le_one (by norm_num)]
  exact_mod_cast h

theorem int_color_float_color (n : ℕ) (h : n ≤ 255) :
    int_color (float_color (n : ℚ)) = (n : ℚ) := by
  rw [float_color_natCast n h]
  unfold int_color
  have h1 : (n : ℚ) / 255 * 255 = (n : ℚ) := div_mul_cancel₀ _ (by norm_num)
  rw [h1, pyInt_natCast]
  unfold pyMin
  have hcond : (((n : ℕ) : ℤ) : ℚ) ≤ 255 := by
    push_cast
    exact_mod_cast h
  rw [if_pos hcond]
  push_cast
  ring

theorem int_color_zero : int_color 0 = 0 := by simp [int_color, pyInt, pyMin]

theorem int_color_one : int_color 1 = 255 := by simp [int_color, pyInt, pyMin]

theorem float_color_255 : float_color 255 = 1 := by norm_num [float_color, pyMin]

theorem is_float_tuple_false_iff (l : List ℚ) :
    is_float_tuple l = false ↔ ∃ x ∈ l, 1 < x ∨ x < 0 := by
  simp only [is_float_tuple, Bool.not_eq_false', List.any_eq_true, Bool.or_eq_true,
    decide_eq_true_eq]

/-- C2 counterexample: the round trip is not the identity on `(0, 0, 1)`:
the tuple is all 0s and 1s, so `float_tuple` classifies it as float and
passes it through, and `int_tuple` then rescales it to `(0, 0, 255)`. -/
theorem roundtrip_not_identity_counterexample :
    c2_roundtrip [0, 0, 1] = .ok (some [0, 0, 255])
    ∧ ([(0 : ℚ), 0, 255] : List ℚ) ≠ [0, 0, 1] := by
  constructor
  · have hf : is_float_tuple [(0 : ℚ), 0, 1] = true := by decide
    simp [c2_roundtrip, float_tuple, hf, pyTruthy, int_tuple, int_tuple_core,
      Bind.bind, Except.bind, int_color_zero, int_color_one]
  · decide

/-- C2 (amended): `int_tuple(float_tuple(t))` is the identity on every int
3-tuple with channels in `[0, 255]` that has a channel exceeding 1 (such a
tuple is not classified as float), and also on `(0, 0, 0)`; all-0/1 tuples
other than `(0, 0, 0)` are instead rescaled through the float passthrough. -/
theorem roundtrip_identity_amended :
    (∀ r g b : ℕ, r ≤ 255 → g ≤ 255 → b ≤ 255 → (1 < r ∨ 1 < g ∨ 1 < b) →
      c2_roundtrip [(r : ℚ), (g : ℚ), (b : ℚ)] = .ok (some [(r : ℚ), (g : ℚ), (b : ℚ)]))
    ∧ c2_roundtrip [0, 0, 0] = .ok (some [0, 0, 0]) := by
  constructor
  · intro r g b hr hg hb h2
    have hf : is_float_tuple [(r : ℚ), (g : ℚ), (b : ℚ)] = false := by
      rw [is_float_tuple_false_iff]
      rcases h2 with h | h | h
      · exact ⟨(r : ℚ), by simp, Or.inl (by exact_mod_cast h)⟩
      · exact ⟨(g : ℚ), by simp, Or.inl (by exact_mod_cast h)⟩
      · exact ⟨(b : ℚ), by simp, Or.inl (by exact_mod_cast h)⟩
    simp [c2_roundtrip, float_tuple, hf, float_tuple_core, pyTruthy,
      int_tuple, int_tuple_core, Bind.bind, Except.bind,
      int_color_float_color r hr, int_color_float_color g hg, int_color_float_color b hb]
  · have hf : is_float_tuple [(0 : ℚ), 0, 0] = true := by decide
    simp [c2_roundtrip, float_tuple, hf, pyTruthy, int_tuple, int_tuple_core,
      Bind.bind, Except.bind, int_color_zero]

/-- Witness for C2 (amended) at the spec's example `(51, 102, 153)`. -/
theorem roundtrip_identity_amended_witness :
    ((51 : ℕ) ≤ 255 ∧ (102 : ℕ) ≤ 255 ∧ (153 : ℕ) ≤ 255 ∧ (1 < 51 ∨ 1 < 102 ∨ 1 < 153))
    ∧ c2_roundtrip [((51 : ℕ) : ℚ), ((102 : ℕ) : ℚ), ((153 : ℕ) : ℚ)]
        = .ok (some [((51 : ℕ) : ℚ), ((102 : ℕ) : ℚ), ((153 : ℕ) : ℚ)]) :=
  ⟨⟨by norm_num, by norm_num, by norm_num, Or.inl (by norm_num)⟩,
    roundtrip_identity_amended.1 51 102 153 (by norm_num) (by norm_num) (by norm_num)
      (Or.inl (by norm_num))⟩

/-- C3 counterexample: `color_outline((0,0,0))` returns the float tuple
`(1.0, 1.0, 1.0)` -- the all-zero tuple is classified as float, so the result
is converted back to floats -- not the claimed `(255, 255, 255)`. -/
theorem color_outline_black_counterexample :
    color_outline [0, 0, 0] = .ok (some [1, 1, 1]) ∧ ((1 : ℚ) ≠ 255) := by
  constructor
  · have hf : is_float_tuple [(0 : ℚ), 0, 0] = true := by decide
    have hnf : is_float_tuple [(255 : ℚ), 255, 255] = false := by decide
    have hb : color_brightness [(0 : ℚ), 0, 0] = 0 := by
      simp [color_brightness, pyInt]
    simp [color_outline, hf, hnf, int_tuple, int_tuple_core, pyTruthy, int_color_zero,
      hb, float_tuple, float_tuple_core, float_color_255,
      Bind.bind, Except.bind, Pure.pure, Except.pure]
  · norm_num

/-- C3 (amended): `color_outline((0,0,0))` returns float white
`(1.0, 1.0, 1.0)` (not int white, because the all-zero tuple is classified as
float); `color_outline((255,255,255))` returns `(0, 0, 0)`; and for every int
RGB(A) tuple with a channel exceeding 1, the result is `(255, 255, 255)` when
`color_brightness` is below 128 and `(0, 0, 0)` otherwise. -/
theorem color_outline_amended :
    color_outline [0, 0, 0] = .ok (some [1, 1, 1])
    ∧ color_outline [255, 255, 255] = .ok (some [0, 0, 0])
    ∧ ∀ l : List ℚ, (l.length = 3 ∨ l.length = 4) →
        (∀ x ∈ l, ∃ n : ℕ, x = (n : ℚ) ∧ n ≤ 255) → (∃ x ∈ l, 1 < x) →
        color_outline l
          = .ok (some (if color_brightness l < 128 then [255, 255, 255] else [0, 0, 0])) := by
  refine ⟨?_, ?_, ?_⟩
  · have hf : is_float_tuple [(0 : ℚ), 0, 0] = true := by decide
    have hnf : is_float_tuple [(255 : ℚ), 255, 255] = false := by decide
    have hb : color_brightness [(0 : ℚ), 0, 0] = 0 := by
      simp [color_brightness, pyInt]
    simp [color_outline, hf, hnf, int_tuple, int_tuple_core, pyTruthy, int_color_zero,
      hb, float_tuple, float_tuple_core, float_color_255,
      Bind.bind, Except.bind, Pure.pure, Except.pure]
  · have hnf : is_float_tuple [(255 : ℚ), 255, 255] = false := by decide
    have hb : color_brightness [(255 : ℚ), 255, 255] = 255 := by
      simp [color_brightness, pyInt]
      norm_num
    simp [color_outline, hnf, hb, Bind.bind, Except.bind, Pure.pure, Except.pure]
  · intro l hlen hint hbig
    have hf : is_float_tuple l = false := by
      rw [is_float_tuple_false_iff]
      obtain ⟨x, hx, h1x⟩ := hbig
      exact ⟨x, hx, Or.inl h1x⟩
    simp [color_outline, hf, Bind.bind, Except.bind, Pure.pure, Except.pure]

/-- Witness for C3 (amended), instantiating the quantified part at
`(255, 0, 0)`. -/
theorem color_outline_amended_witness :
    (([(255 : ℚ), 0, 0] : List ℚ).length = 3 ∨ ([(255 : ℚ), 0, 0] : List ℚ).length = 4)
    ∧ (∀ x ∈ ([(255 : ℚ), 0, 0] : List ℚ), ∃ n : ℕ, x = (n : ℚ) ∧ n ≤ 255)
    ∧ (∃ x ∈ ([(255 : ℚ), 0, 0] : List ℚ), 1 < x)
    ∧ color_outline [(255 : ℚ), 0, 0]
        = .ok (some (if color_brightness [(255 : ℚ), 0, 0] < 128
            then [255, 255, 255] else [0, 0, 0])) := by
  have hlen : ([(255 : ℚ), 0, 0] : List ℚ).length = 3 ∨ ([(255 : ℚ), 0, 0] : List ℚ).length = 4 :=
    Or.inl rfl
  have hint : ∀ x ∈ ([(255 : ℚ), 0, 0] : List ℚ), ∃ n : ℕ, x = (n : ℚ) ∧ n ≤ 255 := by
    intro x hx
    simp only [List.mem_cons, List.not_mem_nil, or_false] at hx
    rcases hx with rfl | rfl | rfl
    · exact ⟨255, by norm_num⟩
    · exact ⟨0, by norm_num⟩
    · exact ⟨0, by norm_num⟩
  have hbig : ∃ x ∈ ([(255 : ℚ), 0, 0] : List ℚ), 1 < x :=
    ⟨255, by simp, by norm_num⟩
  exact ⟨hlen, hint, hbig, (color_outline_amended.2.2 _ hlen hint hbig)⟩

/-- C6 counterexample: a 5-tuple whose elements all lie in `[0, 1]` passes
through `float_tuple` unchanged and without raising, although its length is
neither 3 nor 4. -/
theorem float_tuple_arity_counterexample :
    float_tuple [1, 1, 1, 1, 1] none = .ok (some [1, 1, 1, 1, 1])
    ∧ ([(1 : ℚ), 1, 1, 1, 1] : List ℚ).length ≠ 3
    ∧ ([(1 : ℚ), 1, 1, 1, 1] : List ℚ).length ≠ 4 :=
  ⟨rfl, by simp, by simp⟩

/-- C6 (amended): `int_tuple` raises exactly when its non-empty input has a
length other than 3 or 4; `float_tuple` raises exactly when its non-empty
input is not classified as float AND has a length other than 3 or 4 (a
float-classified tuple of any length is passed through without raising);
empty inputs return `None` from both. -/
theorem codec_arity_errors_amended :
    (∀ (l : List ℚ) (alpha : Option ℚ), l ≠ [] → is_float_tuple l = false →
        (isErrB (float_tuple l alpha) = true ↔ l.length ≠ 3 ∧ l.length ≠ 4))
    ∧ (∀ (l : List ℚ) (alpha : Option ℚ), l ≠ [] →
        (isErrB (int_tuple l alpha) = true ↔ l.length ≠ 3 ∧ l.length ≠ 4))
    ∧ (∀ alpha : Option ℚ, float_tuple [] alpha = .ok none ∧ int_tuple [] alpha = .ok none) := by
  refine ⟨?_, ?_, fun alpha => ⟨rfl, rfl⟩⟩
  · intro l alpha hne hf
    rcases l with _ | ⟨a, _ | ⟨b, _ | ⟨c, _ | ⟨d, rest⟩⟩⟩⟩
    · exact absurd rfl hne
    · simp [float_tuple, hf, isErrB]
    · simp [float_tuple, hf, isErrB]
    · simp [float_tuple, hf, isErrB]
    · rcases rest with _ | ⟨e, rest2⟩
      · simp [float_tuple, hf, isErrB]
      · simp [float_tuple, hf, isErrB]
  · intro l alpha hne
    rcases l with _ | ⟨a, _ | ⟨b, _ | ⟨c, _ | ⟨d, rest⟩⟩⟩⟩
    · exact absurd rfl hne
    · simp [int_tuple, isErrB]
    · simp [int_tuple, isErrB]
    · simp [int_tuple, isErrB]
    · rcases rest with _ | ⟨e, rest2⟩
      · simp [int_tuple, isErrB]
      · simp [int_tuple, isErrB]

/-- Witness for C6 (amended) at the 2-tuple `(2, 2)` for `float_tuple` and
`int_tuple`, and at the empty input. -/
theorem codec_arity_errors_amended_witness :
    (([(2 : ℚ), 2] : List ℚ) ≠ [] ∧ is_float_tuple [(2 : ℚ), 2] = false)
    ∧ (isErrB (float_tuple [(2 : ℚ), 2] none) = true
        ↔ ([(2 : ℚ), 2] : List ℚ).length ≠ 3 ∧ ([(2 : ℚ), 2] : List ℚ).length ≠ 4)
    ∧ (isErrB (int_tuple [(2 : ℚ), 2] none) = true
        ↔ ([(2 : ℚ), 2] : List ℚ).length ≠ 3 ∧ ([(2 : ℚ), 2] : List ℚ).length ≠ 4)
    ∧ (float_tuple [] none = .ok none ∧ int_tuple [] none = .ok none) :=
  ⟨⟨by simp, by decide⟩,
    codec_arity_errors_amended.1 [(2 : ℚ), 2] none (by simp) (by decide),
    codec_arity_errors_amended.2.1 [(2 : ℚ), 2] none (by simp),
    codec_arity_errors_amended.2.2 none⟩

theorem pyFormat02X_natCast (n : ℕ) : pyFormat02X (n : ℚ) = .ok (toHex2 n) := by
  simp [pyFormat02X, intFormat02X, toHex2]

/-- C10 counterexample: `color_hex_format` raises (through `int_tuple`) on a
float-classified 5-tuple instead of returning the empty string. -/
theorem color_hex_format_raises_counterexample :
    color_hex_format [1, 1, 1, 1, 1]
      = .error "TypeError: object of type function has no len()"
    ∧ (Except.error "TypeError: object of type function has no len()"
        : Except String String) ≠ .ok "" :=
  ⟨rfl, fun h => Except.noConfusion h⟩

/-- C10 (amended): `color_hex_format` returns the empty string for a
wrong-length tuple only when the tuple is not classified as float (a
float-classified wrong-length tuple raises, through `int_tuple`); for int
3-tuples it returns `#RRGGBB` and for int 4-tuples `#RRGGBBAA`, in uppercase
hex. -/
theorem color_hex_format_amended :
    (∀ l : List ℚ, is_float_tuple l = false → l.length ≠ 3 → l.length ≠ 4 →
        color_hex_format l = .ok "")
    ∧ (∀ r g b : ℕ, r ≤ 255 → g ≤ 255 → b ≤ 255 →
        is_float_tuple [(r : ℚ), (g : ℚ), (b : ℚ)] = false →
        color_hex_format [(r : ℚ), (g : ℚ), (b : ℚ)]
          = .ok ("#" ++ toHex2 r ++ toHex2 g ++ toHex2 b))
    ∧ (∀ r g b a : ℕ, r ≤ 255 → g ≤ 255 → b ≤ 255 → a ≤ 255 →
        is_float_tuple [(r : ℚ), (g : ℚ), (b : ℚ), (a : ℚ)] = false →
        color_hex_format [(r : ℚ), (g : ℚ), (b : ℚ), (a : ℚ)]
          = .ok ("#" ++ toHex2 r ++ toHex2 g ++ toHex2 b ++ toHex2 a)) := by
  refine ⟨?_, ?_, ?_⟩
  · intro l hf h3 h4
    rcases l with _ | ⟨a, _ | ⟨b, _ | ⟨c, _ | ⟨d, rest⟩⟩⟩⟩
    · simp [is_float_tuple] at hf
    · simp [color_hex_format, hf, Bind.bind, Except.bind, Pure.pure, Except.pure]
    · simp [color_hex_format, hf, Bind.bind, Except.bind, Pure.pure, Except.pure]
    · simp at h3
    · rcases rest with _ | ⟨e, rest2⟩
      · simp at h4
      · simp [color_hex_format, hf, Bind.bind, Except.bind, Pure.pure, Except.pure]
  · intro r g b hr hg hb hf
    simp [color_hex_format, hf, pyFormat02X_natCast,
      Bind.bind, Except.bind, Pure.pure, Except.pure]
  · intro r g b a hr hg hb ha hf
    simp [color_hex_format, hf, pyFormat02X_natCast,
      Bind.bind, Except.bind, Pure.pure, Except.pure]

/-- Witness for C10 (amended) at `(240, 255, 255)` (AZURE) and at the int-ish
wrong-length tuple `(2, 2)`. -/
theorem color_hex_format_amended_witness :
    (is_float_tuple [(2 : ℚ), 2] = false
      ∧ ([(2 : ℚ), 2] : List ℚ).length ≠ 3 ∧ ([(2 : ℚ), 2] : List ℚ).length ≠ 4
      ∧ color_hex_format [(2 : ℚ), 2] = .ok "")
    ∧ (is_float_tuple [((240 : ℕ) : ℚ), ((255 : ℕ) : ℚ), ((255 : ℕ) : ℚ)] = false
      ∧ color_hex_format [((240 : ℕ) : ℚ), ((255 : ℕ) : ℚ), ((255 : ℕ) : ℚ)]
          = .ok ("#" ++ toHex2 240 ++ toHex2 255 ++ toHex2 255)) := by
  constructor
  · exact ⟨by decide, by simp, by simp,
      color_hex_format_amended.1 [(2 : ℚ), 2] (by decide) (by simp) (by simp)⟩
  · have hf : is_float_tuple [((240 : ℕ) : ℚ), ((255 : ℕ) : ℚ), ((255 : ℕ) : ℚ)] = false := by
      norm_num [is_float_tuple]
    exact ⟨hf, color_hex_format_amended.2.1 240 255 255 (by norm_num) (by norm_num)
      (by norm_num) hf⟩

end Kivygw
